import Mathlib

/-!
Shallow embedding of the VisioLab menu-import API stub (`api.py` and
`generate_spec.py`) together with proofs about its endpoint handlers,
its data model, and its OpenAPI schema generation.
-/

namespace MenuApi

/-- JSON-like values: the Python dict/list/str/float/None payloads that the
endpoint handlers return and that the pydantic models serialize to and
parse from. -/
inductive Json where
  | null : Json
  | str : String → Json
  | num : Float → Json
  | arr : List Json → Json
  | obj : List (String × Json) → Json

/-- Field lookup in the field list of a JSON object; keys are unique in every
object this development builds, matching Python dict semantics. -/
def lookupField : List (String × Json) → String → Option Json
  | [], _ => none
  | (k, v) :: rest, key => if key = k then some v else lookupField rest key

/-- Look a field up in a JSON object; `none` on non-objects. -/
def Json.getField : Json → String → Option Json
  | .obj fs, key => lookupField fs key
  | _, _ => none

/-- Extract a JSON string. -/
def Json.asString : Json → Option String
  | .str s => some s
  | _ => none

/-- Extract a JSON number. -/
def Json.asNum : Json → Option Float
  | .num f => some f
  | _ => none

/-- Extract a JSON array. -/
def Json.asArr : Json → Option (List Json)
  | .arr xs => some xs
  | _ => none

/-- The closed set of item categories declared by the
`Literal["MAIN", "SIDE", "BOTTLE", "DESSERT", "DRINK", "SALAD", "SOUP",
"OTHER"]` annotation on `Item.category` in `api.py`. -/
inductive Category where
  | MAIN
  | SIDE
  | BOTTLE
  | DESSERT
  | DRINK
  | SALAD
  | SOUP
  | OTHER
deriving DecidableEq

/-- Wire representation of each category. -/
def Category.toString : Category → String
  | .MAIN => "MAIN"
  | .SIDE => "SIDE"
  | .BOTTLE => "BOTTLE"
  | .DESSERT => "DESSERT"
  | .DRINK => "DRINK"
  | .SALAD => "SALAD"
  | .SOUP => "SOUP"
  | .OTHER => "OTHER"

/-- The eight admissible category strings, in declaration order. -/
def categoryStrings : List String :=
  ["MAIN", "SIDE", "BOTTLE", "DESSERT", "DRINK", "SALAD", "SOUP", "OTHER"]

/-- Validation of the `category` field: exactly the eight literal strings are
accepted, as pydantic enforces for the `Literal` annotation. -/
def parseCategory (s : String) : Option Category :=
  if s = "MAIN" then some .MAIN
  else if s = "SIDE" then some .SIDE
  else if s = "BOTTLE" then some .BOTTLE
  else if s = "DESSERT" then some .DESSERT
  else if s = "DRINK" then some .DRINK
  else if s = "SALAD" then some .SALAD
  else if s = "SOUP" then some .SOUP
  else if s = "OTHER" then some .OTHER
  else none

/-- The `Item` pydantic model of `api.py`: `id` is optional (implicit default
`None`), the other four fields are required. -/
structure Item where
  id : Option String
  name : String
  price : Float
  priceLookup : String
  category : Category

/-- The `Menu` pydantic model of `api.py`. -/
structure Menu where
  date : String
  items : List Item

/-- The `Menus` pydantic model of `api.py`. -/
structure Menus where
  menus : List Menu

/-- The `Message` pydantic model of `api.py`. -/
structure Message where
  message : String

/-- Serialization of an `Item`, mirroring pydantic `.dict()`: fields in
declaration order, an absent `id` serialized as `None`. -/
def serializeItem (it : Item) : Json :=
  .obj [("id", match it.id with | none => .null | some s => .str s),
        ("name", .str it.name),
        ("price", .num it.price),
        ("priceLookup", .str it.priceLookup),
        ("category", .str it.category.toString)]

/-- Parse the optional `id` field: missing or `None` both yield `None`,
as pydantic does for an `Optional[str]` field with default `None`. -/
def parseOptStr : Option Json → Option (Option String)
  | none => some none
  | some .null => some none
  | some (.str s) => some (some s)
  | some _ => none

/-- Parse an `Item` from a JSON object, mirroring pydantic validation of the
`Item` model: four required fields, optional `id`, category restricted to the
eight literals. -/
def parseItem (j : Json) : Option Item := do
  let id ← parseOptStr (j.getField "id")
  let name ← (j.getField "name").bind Json.asString
  let price ← (j.getField "price").bind Json.asNum
  let priceLookup ← (j.getField "priceLookup").bind Json.asString
  let category ← ((j.getField "category").bind Json.asString).bind parseCategory
  pure ⟨id, name, price, priceLookup, category⟩

/-- Parse every element of a JSON array as an `Item`; fails if any fails. -/
def parseItems : List Json → Option (List Item)
  | [] => some []
  | j :: rest => do
    let it ← parseItem j
    let rest' ← parseItems rest
    pure (it :: rest')

/-- Serialization of a `Menu`, mirroring pydantic `.dict()`. -/
def serializeMenu (m : Menu) : Json :=
  .obj [("date", .str m.date), ("items", .arr (m.items.map serializeItem))]

/-- Parse a `Menu` from a JSON object, mirroring pydantic validation. -/
def parseMenu (j : Json) : Option Menu := do
  let date ← (j.getField "date").bind Json.asString
  let itemsJson ← (j.getField "items").bind Json.asArr
  let items ← parseItems itemsJson
  pure ⟨date, items⟩

/-- Parse every element of a JSON array as a `Menu`; fails if any fails. -/
def parseMenuList : List Json → Option (List Menu)
  | [] => some []
  | j :: rest => do
    let m ← parseMenu j
    let rest' ← parseMenuList rest
    pure (m :: rest')

/-- Parse a `Menus` collection from a JSON object. -/
def parseMenus (j : Json) : Option Menus := do
  let menusJson ← (j.getField "menus").bind Json.asArr
  let menus ← parseMenuList menusJson
  pure ⟨menus⟩

/-- Parse a `Message` from a JSON object. -/
def parseMessage (j : Json) : Option Message := do
  let msg ← (j.getField "message").bind Json.asString
  pure ⟨msg⟩

/-- Body returned by the `get_menu` handler in `api.py`: a fixed hardcoded
dict; the `date` parameter does not occur in the body. -/
def get_menu (date : String) : Json :=
  .obj [("date", .str "2023-01-01"),
        ("items", .arr
          [.obj [("name", .str "Burger"), ("price", .num 3.0),
                 ("priceLookup", .str "123"), ("category", .str "MAIN")],
           .obj [("name", .str "Salad"), ("price", .num 1.5),
                 ("priceLookup", .str "456"), ("category", .str "SALAD")]])]

/-- Body returned by the `get_menus` handler in `api.py`: a fixed hardcoded
dict; neither the `start` nor the `end` parameter occurs in the body. -/
def get_menus (start finish : String) : Json :=
  .obj [("menus", .arr
    [.obj [("date", .str "2023-01-01"),
           ("items", .arr
             [.obj [("name", .str "Burger"), ("price", .num 3.0),
                    ("priceLookup", .str "123"), ("category", .str "MAIN")],
              .obj [("name", .str "Salad"), ("price", .num 1.5),
                    ("priceLookup", .str "456"), ("category", .str "SALAD")]])],
     .obj [("date", .str "2023-01-02"),
           ("items", .arr
             [.obj [("name", .str "Pasta"), ("price", .num 3.0),
                    ("priceLookup", .str "123"), ("category", .str "MAIN")],
              .obj [("name", .str "Salad"), ("price", .num 1.5),
                    ("priceLookup", .str "546"), ("category", .str "SALAD")]])]])]

/-- An HTTP response: a status code and a JSON body. -/
structure HttpResponse where
  status : Nat
  body : Json

/-- Full response of `GET /menus/{date}`: FastAPI wraps the returned dict
with the default success status 200. -/
def handleGetMenu (date : String) : HttpResponse :=
  ⟨200, get_menu date⟩

/-- Full response of `GET /menus/?start=...&end=...`: FastAPI wraps the
returned dict with the default success status 200. -/
def handleGetMenus (start finish : String) : HttpResponse :=
  ⟨200, get_menus start finish⟩

/-- Lexicographic code-point comparison of character lists, as Python compares
strings with `<=`. -/
def charListLeb : List Char → List Char → Bool
  | [], _ => true
  | _ :: _, [] => false
  | a :: as, b :: bs =>
    if a.toNat < b.toNat then true
    else if b.toNat < a.toNat then false
    else charListLeb as bs

/-- String order used for ISO date strings: Python's lexicographic `<=`. -/
def dateLe (s e : String) : Prop :=
  charListLeb s.toList e.toList = true

instance (s e : String) : Decidable (dateLe s e) := by
  unfold dateLe
  infer_instance

/-- A declared response in a route's `responses=` dict: the model name and the
human-readable description registered for a status code. -/
structure ResponseDecl where
  model : String
  description : String
deriving DecidableEq

/-- A route declaration from the `@app.get(...)` decorators of `api.py`. -/
structure RouteDecl where
  path : String
  summary : String
  responses : List (Nat × ResponseDecl)
deriving DecidableEq

/-- The declaration of `GET /menus/{date}` in `api.py`. -/
def getMenuRoute : RouteDecl :=
  ⟨"/menus/{date}", "Get menu for date",
   [(200, ⟨"Menu", "The menu."⟩),
    (404, ⟨"Message", "No menu available for the requested date."⟩)]⟩

/-- The declaration of `GET /menus/` in `api.py`. -/
def getMenusRoute : RouteDecl :=
  ⟨"/menus/", "Get menus for date range",
   [(200, ⟨"Menus", "The menus."⟩),
    (404, ⟨"Message", "No menus available for the requested date range."⟩)]⟩

/-- Look up the declared description for a status code of a route. -/
def responseDescription (r : RouteDecl) (status : Nat) : Option String :=
  (r.responses.lookup status).map ResponseDecl.description

/-- The `description=` strings attached by `Field(...)` to the properties of
the `Item` model in `api.py`, in declaration order. -/
def itemFieldDescriptions : List (String × String) :=
  [("id", ""),
   ("name", "Optional unique identifier for the article, such as a GUID. Must not contain any \".\" or \"/\" characters. Different articles with the same price on different days should still have different IDs. If not set, a unique ID will be generated internally."),
   ("price", "The default price for the articles. Default prices are shown to guests before authentication. Yet, the final price is based on priceLookup if present."),
   ("priceLookup", "The price lookup code for the article. Whatever identifier is used in the cash register to identify the price group of articles, such as an article ID."),
   ("category", "Category of the item.")]

/-- Description declared for one property of the `Item` model. -/
def itemFieldDescription (field : String) : Option String :=
  itemFieldDescriptions.lookup field

/-- The base64 alphabet of RFC 4648, as Python's `base64.b64encode` uses. -/
def b64alphabet : List Char :=
  ['A', 'B', 'C', 'D', 'E', 'F', 'G', 'H', 'I', 'J', 'K', 'L', 'M',
   'N', 'O', 'P', 'Q', 'R', 'S', 'T', 'U', 'V', 'W', 'X', 'Y', 'Z',
   'a', 'b', 'c', 'd', 'e', 'f', 'g', 'h', 'i', 'j', 'k', 'l', 'm',
   'n', 'o', 'p', 'q', 'r', 's', 't', 'u', 'v', 'w', 'x', 'y', 'z',
   '0', '1', '2', '3', '4', '5', '6', '7', '8', '9', '+', '/']

/-- Character for a 6-bit group. -/
def b64char (n : Nat) : Char :=
  b64alphabet.getD n 'A'

/-- Standard base64 with padding over a byte list, as Python's
`base64.b64encode(...).decode("utf-8")` produces. -/
def b64encode : List Nat → String
  | [] => ""
  | [a] =>
    String.mk [b64char (a / 4), b64char (a % 4 * 16), '=', '=']
  | [a, b] =>
    String.mk [b64char (a / 4), b64char (a % 4 * 16 + b / 16),
               b64char (b % 16 * 4), '=']
  | a :: b :: c :: rest =>
    String.mk [b64char (a / 4), b64char (a % 4 * 16 + b / 16),
               b64char (b % 16 * 4 + c / 64), b64char (c % 64)] ++ b64encode rest

/-- File system seen by the process: maps a path to the bytes of the file at
that path, `none` when the file does not exist. -/
def FS : Type := String → Option (List Nat)

/-- The `as_base64_url` helper of `api.py`: reads the file and prepends
`"data:image/png;base64, "` (note the space after the comma, exactly as in
the source) to its base64 encoding; raises (`Except.error`) when the file
cannot be read, as `pathlib.Path(path).read_bytes()` does. -/
def as_base64_url (fs : FS) (path : String) : Except String String :=
  match fs path with
  | none => .error ("FileNotFoundError: " ++ path)
  | some bytes => .ok ("data:image/png;base64, " ++ b64encode bytes)

/-- The `x-logo` object stored under `info` in the generated schema. -/
structure XLogo where
  url : String
deriving DecidableEq

/-- The `info` section of the generated OpenAPI schema document. -/
structure OpenApiInfo where
  title : String
  version : String
  description : String
  xLogo : Option XLogo
deriving DecidableEq

/-- The generated OpenAPI schema document, restricted to the parts the spec
speaks about: the `info` section and the route set. -/
structure OpenApiSchema where
  info : OpenApiInfo
  routes : List RouteDecl
deriving DecidableEq

/-- FastAPI's `get_openapi(title=..., version=..., description=...,
routes=...)`: a deterministic document built from its arguments, with no
`x-logo` yet. -/
def get_openapi (title version description : String)
    (routes : List RouteDecl) : OpenApiSchema :=
  ⟨⟨title, version, description, none⟩, routes⟩

/-- The mutable FastAPI application object: its constructor arguments from
`api.py` plus the `openapi_schema` attribute, which starts out `None` and is
the only state `custom_openapi` mutates. -/
structure App where
  title : String
  version : String
  description : String
  routes : List RouteDecl
  openapi_schema : Option OpenApiSchema
deriving DecidableEq

/-- The application as constructed in `api.py`: FastAPI's default version
string is `"0.1.0"`, and no schema is cached at startup. -/
def theApp : App :=
  ⟨"VisioLab Menu Import API",
   "0.1.0",
   "API for importing menus into the VisioLab backend.",
   [getMenuRoute, getMenusRoute],
   none⟩

/-- The `custom_openapi` function of `api.py`, with the file system and the
app object passed explicitly: returns the cached schema unchanged if one is
stored; otherwise generates the document, embeds the logo read from
`./logo.png`, stores the document in `app.openapi_schema` and returns it.
Reading a missing logo file raises, modelled by `Except.error`. -/
def custom_openapi (fs : FS) (app : App) : Except String (OpenApiSchema × App) :=
  match app.openapi_schema with
  | some s => .ok (s, app)
  | none =>
    let base := get_openapi app.title app.version app.description app.routes
    match as_base64_url fs "./logo.png" with
    | .error e => .error e
    | .ok url =>
      let schema : OpenApiSchema := ⟨⟨base.info.title, base.info.version,
        base.info.description, some ⟨url⟩⟩, base.routes⟩
      .ok (schema, { app with openapi_schema := some schema })

/-- The `get_menu` handler acting on the process state: its body only returns
a literal, so the response ignores and the state passes through the app
object unchanged. -/
def getMenuApp (date : String) (app : App) : HttpResponse × App :=
  (handleGetMenu date, app)

/-- The `get_menus` handler acting on the process state: its body only
returns a literal, so the response ignores and the state passes through the
app object unchanged. -/
def getMenusApp (start finish : String) (app : App) : HttpResponse × App :=
  (handleGetMenus start finish, app)

/-- The menu obtained by parsing the fixed body of `get_menu` (also the first
menu of `get_menus`): no `id` fields occur in the literal, so both items get
`id = none`. -/
def fixedMenu1 : Menu :=
  ⟨"2023-01-01",
   [⟨none, "Burger", 3.0, "123", .MAIN⟩,
    ⟨none, "Salad", 1.5, "456", .SALAD⟩]⟩

/-- The second menu of the fixed `get_menus` body. -/
def fixedMenu2 : Menu :=
  ⟨"2023-01-02",
   [⟨none, "Pasta", 3.0, "123", .MAIN⟩,
    ⟨none, "Salad", 1.5, "546", .SALAD⟩]⟩

/-- The collection obtained by parsing the fixed body of `get_menus`. -/
def fixedMenus : Menus :=
  ⟨[fixedMenu1, fixedMenu2]⟩

/-- The body of the spec's end-to-end example for `GET /menus/2023-01-01`,
transcribed from the spec's words; compared below against the body the code
actually returns. -/
def specExampleMenuBody : Json :=
  .obj [("date", .str "2023-01-01"),
        ("items", .arr
          [.obj [("name", .str "Burger"), ("price", .num 3.0),
                 ("priceLookup", .str "123"), ("category", .str "MAIN")],
           .obj [("name", .str "Salad"), ("price", .num 1.5),
                 ("priceLookup", .str "456"), ("category", .str "SALAD")]])]

/-- Response `r` carries success status 200 and a body that validates as a
single `Menu` whose date is `d`. -/
def returnsMenuFor (r : HttpResponse) (d : String) : Prop :=
  r.status = 200 ∧ ∃ m : Menu, parseMenu r.body = some m ∧ m.date = d

/-- Response `r` is a 404 carrying a `Message` body. -/
def returnsNotFound (r : HttpResponse) : Prop :=
  r.status = 404 ∧ ∃ msg : Message, parseMessage r.body = some msg

/-- The spec's claim about `GET /menus/{d}`: either exactly one `Menu` dated
`d`, or a 404 `Message`. -/
def singleDateClaim (d : String) : Prop :=
  returnsMenuFor (handleGetMenu d) d ∨ returnsNotFound (handleGetMenu d)

/-- The spec's claim about `GET /menus/?start=s&end=e`: success carrying a
`Menus` collection whose every member is dated within `[s, e]`, with no
duplicate dates. -/
def rangeClaim (s e : String) : Prop :=
  (handleGetMenus s e).status = 200 ∧
    ∃ ms : Menus, parseMenus (handleGetMenus s e).body = some ms ∧
      (∀ m ∈ ms.menus, dateLe s m.date ∧ dateLe m.date e) ∧
      (ms.menus.map Menu.date).Nodup

/-- Parsing the body of `get_menu` always yields the fixed menu dated
2023-01-01, whatever date was requested. -/
theorem parseMenu_get_menu (d : String) :
    parseMenu (handleGetMenu d).body = some fixedMenu1 := rfl

/-- Parsing the body of `get_menus` always yields the two fixed menus dated
2023-01-01 and 2023-01-02, whatever range was requested. -/
theorem parseMenus_get_menus (s e : String) :
    parseMenus (handleGetMenus s e).body = some fixedMenus := rfl

/-- Parsing the serialization of an `Item` recovers it. -/
theorem itemRoundtrip (it : Item) : parseItem (serializeItem it) = some it := by
  obtain ⟨id, name, price, priceLookup, category⟩ := it
  cases id <;> cases category <;> rfl

/-- Parsing the serializations of a list of `Item`s recovers the list. -/
theorem itemsRoundtrip (l : List Item) :
    parseItems (l.map serializeItem) = some l := by
  induction l with
  | nil => rfl
  | cons hd tl ih =>
    show Option.bind (parseItem (serializeItem hd))
        (fun it => Option.bind (parseItems (tl.map serializeItem))
          (fun rest' => some (it :: rest'))) = some (hd :: tl)
    rw [itemRoundtrip, ih]
    rfl

/-- Parsing the serialization of a `Menu` recovers it. -/
theorem menuRoundtrip (m : Menu) : parseMenu (serializeMenu m) = some m := by
  obtain ⟨date, items⟩ := m
  show Option.bind (parseItems (items.map serializeItem))
      (fun items' => some (Menu.mk date items')) = some (Menu.mk date items)
  rw [itemsRoundtrip]
  rfl

/-- C1 (counterexample): at the valid date 2023-01-02 the handler returns
neither a Menu dated 2023-01-02 nor a 404 Message — it returns the fixed menu
dated 2023-01-01 — so the claimed dichotomy fails. -/
theorem C1_counterexample : ¬ singleDateClaim "2023-01-02" := by
  rintro (⟨-, m, hp, hdate⟩ | ⟨h404, -⟩)
  · have hm : m = fixedMenu1 :=
      (Option.some.inj ((parseMenu_get_menu _).symm.trans hp)).symm
    rw [hm] at hdate
    exact absurd hdate (by decide)
  · exact absurd h404 (by decide)

/-- C1 (amended): for every date `d`, `get_menu d` returns status 200 with
the fixed menu dated 2023-01-01 and never a 404 Message; consequently the
spec's dichotomy (a Menu dated `d`, or a 404) holds exactly when
`d = "2023-01-01"`. -/
theorem C1_single_date_fixed_menu : ∀ d : String,
    returnsMenuFor (handleGetMenu d) "2023-01-01" ∧
    ¬ returnsNotFound (handleGetMenu d) ∧
    (singleDateClaim d ↔ d = "2023-01-01") := by
  intro d
  refine ⟨⟨rfl, fixedMenu1, parseMenu_get_menu d, rfl⟩, ?_, ?_⟩
  · rintro ⟨h404, -⟩
    simp [handleGetMenu] at h404
  · constructor
    · rintro (⟨-, m, hp, hdate⟩ | ⟨h404, -⟩)
      · have hm : m = fixedMenu1 :=
          (Option.some.inj ((parseMenu_get_menu _).symm.trans hp)).symm
        rw [← hdate, hm]
        rfl
      · simp [handleGetMenu] at h404
    · rintro rfl
      exact Or.inl ⟨rfl, fixedMenu1, parseMenu_get_menu _, rfl⟩

/-- C2 (counterexample): the range 2024-01-01 .. 2024-12-31 is valid
(start at or before end), yet the response contains the fixed menu dated
2023-01-01, which lies outside the range, so the claimed in-range property
fails. -/
theorem C2_counterexample :
    dateLe "2024-01-01" "2024-12-31" ∧ ¬ rangeClaim "2024-01-01" "2024-12-31" := by
  refine ⟨by decide, ?_⟩
  rintro ⟨-, ms, hp, hall, -⟩
  have hms : ms = fixedMenus :=
    (Option.some.inj ((parseMenus_get_menus _ _).symm.trans hp)).symm
  subst hms
  have h1 := (hall fixedMenu1 (List.mem_cons_self _ _)).1
  exact absurd h1 (by decide)

/-- C2 (amended): for every range, `get_menus` returns status 200 with
exactly the two fixed menus dated 2023-01-01 and 2023-01-02 (distinct dates);
their dates all lie inside `[s, e]` precisely when both fixed dates do; and
the spec's example range 2023-01-01 .. 2023-01-02 does satisfy the claimed
property, with exactly those two dates returned. -/
theorem C2_range_fixed_menus : ∀ s e : String,
    (handleGetMenus s e).status = 200 ∧
    parseMenus (handleGetMenus s e).body = some fixedMenus ∧
    (fixedMenus.menus.map Menu.date).Nodup ∧
    ((∀ m ∈ fixedMenus.menus, dateLe s m.date ∧ dateLe m.date e) ↔
      (dateLe s "2023-01-01" ∧ dateLe "2023-01-01" e ∧
       dateLe s "2023-01-02" ∧ dateLe "2023-01-02" e)) ∧
    rangeClaim "2023-01-01" "2023-01-02" ∧
    fixedMenus.menus.map Menu.date = ["2023-01-01", "2023-01-02"] := by
  intro s e
  refine ⟨rfl, parseMenus_get_menus s e, by decide, ?_, ?_, rfl⟩
  · constructor
    · intro hall
      have h1 := hall fixedMenu1 (List.mem_cons_self _ _)
      have h2 := hall fixedMenu2 (List.mem_cons_of_mem _ (List.mem_cons_self _ _))
      exact ⟨h1.1, h1.2, h2.1, h2.2⟩
    · rintro ⟨ha, hb, hc, hd⟩
      intro m hm
      rcases List.mem_cons.mp hm with rfl | hm2
      · exact ⟨ha, hb⟩
      · rcases List.mem_cons.mp hm2 with rfl | hm3
        · exact ⟨hc, hd⟩
        · exact absurd hm3 (List.not_mem_nil _)
  · refine ⟨rfl, fixedMenus, parseMenus_get_menus _ _, ?_, by decide⟩
    intro m hm
    rcases List.mem_cons.mp hm with rfl | hm2
    · exact ⟨by decide, by decide⟩
    · rcases List.mem_cons.mp hm2 with rfl | hm3
      · exact ⟨by decide, by decide⟩
      · exact absurd hm3 (List.not_mem_nil _)

/-- C3: both handlers ignore their parameters — any two calls of `get_menu`
agree, any two calls of `get_menus` agree — and the single-date response is
exactly status 200 with the spec's example payload. -/
theorem C3_handlers_constant :
    (∀ d1 d2 : String, get_menu d1 = get_menu d2) ∧
    (∀ s1 e1 s2 e2 : String, get_menus s1 e1 = get_menus s2 e2) ∧
    (∀ d : String, handleGetMenu d = ⟨200, specExampleMenuBody⟩) :=
  ⟨fun _ _ => rfl, fun _ _ _ _ => rfl, fun _ => rfl⟩

/-- C4: each handler leaves the app state unchanged, and evaluating the same
request twice in a row — the second from the state left by the first — gives
equal responses and equal states. -/
theorem C4_idempotent :
    ∀ (d s e : String) (app : App),
      (getMenuApp d app).2 = app ∧
      getMenuApp d ((getMenuApp d app).2) = getMenuApp d app ∧
      (getMenusApp s e app).2 = app ∧
      getMenusApp s e ((getMenusApp s e app).2) = getMenusApp s e app :=
  fun _ _ _ _ => ⟨rfl, rfl, rfl, rfl⟩

/-- The schema document generated on a fresh cache for app `app` and logo
file content `bytes`. -/
def generatedSchema (app : App) (bytes : List Nat) : OpenApiSchema :=
  ⟨⟨app.title, app.version, app.description,
    some ⟨"data:image/png;base64, " ++ b64encode bytes⟩⟩, app.routes⟩

/-- With no cached schema and a readable logo, `custom_openapi` generates the
document, stores it in the app object, and returns it. -/
theorem custom_openapi_fresh (fs : FS) (app : App) (bytes : List Nat)
    (hnone : app.openapi_schema = none)
    (hfile : fs "./logo.png" = some bytes) :
    custom_openapi fs app = Except.ok (generatedSchema app bytes,
      { app with openapi_schema := some (generatedSchema app bytes) }) := by
  unfold custom_openapi as_base64_url
  rw [hnone, hfile]
  rfl

/-- With no cached schema and no logo file, `custom_openapi` raises the
file-not-found error of `Path.read_bytes`. -/
theorem custom_openapi_missing_logo (fs : FS) (app : App)
    (hnone : app.openapi_schema = none)
    (hfile : fs "./logo.png" = none) :
    custom_openapi fs app = Except.error "FileNotFoundError: ./logo.png" := by
  unfold custom_openapi as_base64_url
  rw [hnone, hfile]
  rfl

/-- C5: whenever `custom_openapi` returns a document, that document is stored
in `app.openapi_schema`, and every subsequent call — under any file system,
in particular one without `logo.png` — returns the stored document and leaves
the state unchanged, so all calls after the first agree with the first. -/
theorem C5_schema_memoized :
    ∀ (fs : FS) (app : App) (s : OpenApiSchema) (app' : App),
      custom_openapi fs app = Except.ok (s, app') →
      app'.openapi_schema = some s ∧
      ∀ fs' : FS, custom_openapi fs' app' = Except.ok (s, app') := by
  intro fs app s app' h
  cases happ : app.openapi_schema with
  | some s0 =>
    have hres : custom_openapi fs app = Except.ok (s0, app) := by
      unfold custom_openapi
      rw [happ]
    rw [hres] at h
    simp only [Except.ok.injEq, Prod.mk.injEq] at h
    obtain ⟨rfl, rfl⟩ := h
    refine ⟨happ, ?_⟩
    intro fs'
    unfold custom_openapi
    rw [happ]
  | none =>
    cases hfile : fs "./logo.png" with
    | none =>
      rw [custom_openapi_missing_logo fs app happ hfile] at h
      exact Except.noConfusion h
    | some bytes =>
      rw [custom_openapi_fresh fs app bytes happ hfile] at h
      simp only [Except.ok.injEq, Prod.mk.injEq] at h
      obtain ⟨rfl, rfl⟩ := h
      refine ⟨rfl, ?_⟩
      intro fs'
      unfold custom_openapi
      rfl

/-- Concrete logo bytes for the witnesses: the PNG magic prefix. -/
def logoBytes0 : List Nat := [137, 80, 78, 71]

/-- Concrete file system with a readable `./logo.png` and nothing else. -/
def fs0 : FS := fun p => if p = "./logo.png" then some logoBytes0 else none

/-- The document generated from `fs0` on the fresh app. -/
def schema0 : OpenApiSchema := generatedSchema theApp logoBytes0

/-- The app state after the first schema generation against `fs0`. -/
def app0Cached : App := { theApp with openapi_schema := some schema0 }

/-- C5 (witness): on the concrete file system `fs0` the first call stores the
generated document, and a second call under a file system with no `logo.png`
at all still returns the stored document unchanged. -/
theorem C5_schema_memoized_witness :
    custom_openapi fs0 theApp = Except.ok (schema0, app0Cached) ∧
    app0Cached.openapi_schema = some schema0 ∧
    custom_openapi (fun _ => none) app0Cached = Except.ok (schema0, app0Cached) := by
  have h : custom_openapi fs0 theApp = Except.ok (schema0, app0Cached) :=
    custom_openapi_fresh fs0 theApp logoBytes0 rfl rfl
  exact ⟨h, (C5_schema_memoized fs0 theApp schema0 app0Cached h).1,
    (C5_schema_memoized fs0 theApp schema0 app0Cached h).2 (fun _ => none)⟩

/-- C6 (counterexample): with the concrete logo bytes `logoBytes0`, the
generated logo URL is the prefix `"data:image/png;base64, "` — with a space
after the comma — followed by the base64 text, and is NOT the claimed prefix
`"data:image/png;base64,"` immediately followed by the base64 text. -/
theorem C6_counterexample :
    custom_openapi fs0 theApp = Except.ok (schema0, app0Cached) ∧
    schema0.info.xLogo = some ⟨"data:image/png;base64, " ++ b64encode logoBytes0⟩ ∧
    schema0.info.xLogo ≠ some ⟨"data:image/png;base64," ++ b64encode logoBytes0⟩ := by
  refine ⟨custom_openapi_fresh fs0 theApp logoBytes0 rfl rfl, rfl, ?_⟩
  decide

/-- C6 (amended): in the document generated from any readable logo file, the
title is "VisioLab Menu Import API" and the logo URL is the exact prefix
`"data:image/png;base64, "` — comma followed by one space — followed by the
base64 encoding of the bytes of `logo.png`. -/
theorem C6_schema_title_and_logo :
    ∀ (fs : FS) (bytes : List Nat), fs "./logo.png" = some bytes →
      ∀ (s : OpenApiSchema) (app' : App),
        custom_openapi fs theApp = Except.ok (s, app') →
        s.info.title = "VisioLab Menu Import API" ∧
        s.info.xLogo = some ⟨"data:image/png;base64, " ++ b64encode bytes⟩ := by
  intro fs bytes hfile s app' h
  rw [custom_openapi_fresh fs theApp bytes rfl hfile] at h
  simp only [Except.ok.injEq, Prod.mk.injEq] at h
  obtain ⟨rfl, rfl⟩ := h
  exact ⟨rfl, rfl⟩

/-- C6 (witness): the amended statement evaluated on the concrete file system
`fs0`. -/
theorem C6_schema_title_and_logo_witness :
    fs0 "./logo.png" = some logoBytes0 ∧
    custom_openapi fs0 theApp = Except.ok (schema0, app0Cached) ∧
    schema0.info.title = "VisioLab Menu Import API" ∧
    schema0.info.xLogo = some ⟨"data:image/png;base64, " ++ b64encode logoBytes0⟩ := by
  have h : custom_openapi fs0 theApp = Except.ok (schema0, app0Cached) :=
    custom_openapi_fresh fs0 theApp logoBytes0 rfl rfl
  have h2 := C6_schema_title_and_logo fs0 logoBytes0 rfl schema0 app0Cached h
  exact ⟨rfl, h, h2.1, h2.2⟩

/-- C7: on the fresh app, schema generation succeeds exactly when
`./logo.png` is readable, raises file-not-found when the file is missing,
and the two live handlers succeed with status 200 on every input regardless
of the file system. -/
theorem C7_missing_logo_fatal_only_for_schema :
    ∀ fs : FS,
      ((∃ r, custom_openapi fs theApp = Except.ok r) ↔
        ∃ bytes, fs "./logo.png" = some bytes) ∧
      (fs "./logo.png" = none →
        custom_openapi fs theApp = Except.error "FileNotFoundError: ./logo.png") ∧
      (∀ d, (handleGetMenu d).status = 200) ∧
      (∀ s e, (handleGetMenus s e).status = 200) := by
  intro fs
  refine ⟨⟨?_, ?_⟩, ?_, fun _ => rfl, fun _ _ => rfl⟩
  · rintro ⟨r, hr⟩
    cases hfile : fs "./logo.png" with
    | none =>
      rw [custom_openapi_missing_logo fs theApp rfl hfile] at hr
      exact Except.noConfusion hr
    | some bytes => exact ⟨bytes, rfl⟩
  · rintro ⟨bytes, hfile⟩
    exact ⟨_, custom_openapi_fresh fs theApp bytes rfl hfile⟩
  · intro hfile
    exact custom_openapi_missing_logo fs theApp rfl hfile

/-- C7 (witness): under a file system with no files at all, schema generation
on the fresh app raises the file-not-found error. -/
theorem C7_missing_logo_witness :
    custom_openapi (fun _ => none) theApp =
      Except.error "FileNotFoundError: ./logo.png" :=
  (C7_missing_logo_fatal_only_for_schema (fun _ => none)).2.1 rfl

/-- C8 (counterexample): the description registered for status 404 on the
range route is the plural "No menus available for the requested date range.",
not the singular "no menu available" phrasing the claim states. -/
theorem C8_counterexample :
    responseDescription getMenusRoute 404 =
      some "No menus available for the requested date range." ∧
    responseDescription getMenusRoute 404 ≠
      some "No menu available for the requested date range." := by
  exact ⟨rfl, by decide⟩

/-- C8 (amended): the range route's 404 description is the plural phrasing
"No menus available for the requested date range."; the singular phrasing
lives on the single-date route instead. -/
theorem C8_plural_description :
    responseDescription getMenusRoute 404 =
      some "No menus available for the requested date range." ∧
    responseDescription getMenuRoute 404 =
      some "No menu available for the requested date." :=
  ⟨rfl, rfl⟩

/-- C9: every `Item`'s category serializes to one of the eight enumerated
strings, only those eight strings validate as categories, and parsing the
serialization of any `Menu` returns it unchanged. -/
theorem C9_enum_and_roundtrip :
    (∀ it : Item, it.category.toString ∈ categoryStrings) ∧
    (∀ s c, parseCategory s = some c → s ∈ categoryStrings) ∧
    (∀ m : Menu, parseMenu (serializeMenu m) = some m) := by
  refine ⟨?_, ?_, menuRoundtrip⟩
  · intro it
    cases it.category <;> decide
  · intro s c h
    unfold parseCategory at h
    split_ifs at h with h1 h2 h3 h4 h5 h6 h7 h8
    · subst h1; decide
    · subst h2; decide
    · subst h3; decide
    · subst h4; decide
    · subst h5; decide
    · subst h6; decide
    · subst h7; decide
    · subst h8; decide

/-- C9 (witness): the enumeration and round-trip statements evaluated on a
concrete item, a concrete category string, and the concrete fixed menu. -/
theorem C9_enum_and_roundtrip_witness :
    (⟨none, "Burger", 3.0, "123", Category.MAIN⟩ : Item).category.toString ∈ categoryStrings ∧
    "SOUP" ∈ categoryStrings ∧
    parseMenu (serializeMenu fixedMenu1) = some fixedMenu1 :=
  ⟨C9_enum_and_roundtrip.1 ⟨none, "Burger", 3.0, "123", Category.MAIN⟩,
   C9_enum_and_roundtrip.2.1 "SOUP" Category.SOUP rfl,
   C9_enum_and_roundtrip.2.2 fixedMenu1⟩

/-- C10: in the `Item` model the property `id` carries the empty description
string while `name` carries the text about the optional unique identifier, so
the identifier constraints are documented on `name`, not on `id`. -/
theorem C10_shifted_descriptions :
    itemFieldDescription "id" = some "" ∧
    itemFieldDescription "name" =
      some "Optional unique identifier for the article, such as a GUID. Must not contain any \".\" or \"/\" characters. Different articles with the same price on different days should still have different IDs. If not set, a unique ID will be generated internally." ∧
    itemFieldDescription "id" ≠ itemFieldDescription "name" := by
  refine ⟨rfl, rfl, by decide⟩

end MenuApi
